import Mathlib

/-!
Shallow embedding of `GPIB.py` (class `GPIBController`) and its subclass
`LGAD_IV.py`.

Modelling conventions:
* An instrument handle is identified by a `Nat` (handle id).  The VISA
  transport is an `Env`: it decides whether each transport call succeeds
  (a `false`/`none` outcome models the Python call raising an exception,
  which the surrounding `try`/`except` catches) and what string a query
  or read returns.
* The Python `self.instruments` dict is an insertion-ordered association
  list `List (String × Nat)`; inserting an existing key replaces the
  value in place, as Python dicts do.
* Every transport call (write / query / read / handle close / resource
  manager close / open_resource) is recorded as an `Event` in a trace, so
  "no transport operation is performed" and "exactly one close call" are
  statements about the trace.
* Time is counted in tenths of a second, advanced only by the deliberate
  `time.sleep` calls (the `delay` after write/query and the 0.1 s sleep
  in the `wait_for_completion` poll loop).  All delays in the source are
  multiples of 0.1 s (0.1 → 1, 2.0 → 20).
* A query's response may depend on how many queries the handle has
  already received (its position in the poll sequence), computed from
  the trace.
-/

/-- One transport-level call, as observed by the VISA layer.
A `query` event also records the value `query_command` returned to its
caller (`none` when the underlying query raised). -/
inductive Event where
  | openR (resource_name : String)
  | write (hid : Nat) (command : String)
  | query (hid : Nat) (command : String) (result : Option String)
  | read (hid : Nat)
  | close (hid : Nat)
  | rmClose
deriving DecidableEq, Repr

/-- Behaviour of one instrument handle, as the external VISA transport.
`queryResp n cmd` is the raw string the handle returns to the `n`-th
query it receives (0-based); `none` means the call raises. -/
structure HandleSpec where
  queryResp : Nat → String → Option String
  writeOk : String → Bool
  readResp : Option String
  closeOk : Bool

/-- The external world: the resource manager plus every handle's
behaviour.  A `false`/`none` models the corresponding Python call
raising. -/
structure Env where
  rmInitOk : Bool
  listResult : Option (List String)
  openOk : String → Bool
  handles : Nat → HandleSpec
  rmCloseOk : Bool

/-- State of one `GPIBController` object, plus the observation trace and
the modelled clock (in tenths of a second). -/
structure GPIBState where
  instruments : List (String × Nat)
  nextHandle : Nat
  trace : List Event
  clock : Nat
deriving Repr

/-- Python dict lookup `d[k]` / `k in d`. -/
def dictGet (k : String) (d : List (String × Nat)) : Option Nat :=
  (d.find? (fun p => p.1 = k)).map (fun p => p.2)

/-- Python dict assignment `d[k] = v`: replaces in place if the key is
present, otherwise appends (insertion order). -/
def dictInsert (k : String) (v : Nat) (d : List (String × Nat)) :
    List (String × Nat) :=
  if d.any (fun p => p.1 = k) then
    d.map (fun p => if p.1 = k then (k, v) else p)
  else
    d ++ [(k, v)]

/-- Python `del d[k]`. -/
def dictDel (k : String) (d : List (String × Nat)) : List (String × Nat) :=
  d.filter (fun p => ¬ p.1 = k)

/-- Number of queries handle `hid` has received so far (indexes
`HandleSpec.queryResp`). -/
def queryCount (tr : List Event) (hid : Nat) : Nat :=
  (tr.filter (fun e => match e with
    | Event.query h _ _ => h = hid
    | _ => false)).length

/-- Number of `close` calls handle `hid` has received in `tr`. -/
def closeCount (tr : List Event) (hid : Nat) : Nat :=
  (tr.filter (fun e => match e with
    | Event.close h => h = hid
    | _ => false)).length

/-- Number of resource-manager `close` calls in `tr`. -/
def rmCloseCount (tr : List Event) : Nat :=
  (tr.filter (fun e => match e with
    | Event.rmClose => true
    | _ => false)).length

/-- Python `str.strip()`: drop leading and trailing whitespace
characters. -/
def pyStrip (s : String) : String :=
  String.mk (((s.data.dropWhile Char.isWhitespace).reverse.dropWhile
    Char.isWhitespace).reverse)

/-- `GPIBController.__init__`: `none` models the re-raised
resource-manager initialization failure. -/
def mkController (env : Env) : Option GPIBState :=
  if env.rmInitOk then
    some { instruments := [], nextHandle := 0, trace := [], clock := 0 }
  else
    none

/-- `GPIBController.list_resources`: delegates to the resource manager,
returns `[]` if that raises. -/
def list_resources (env : Env) (s : GPIBState) : List String × GPIBState :=
  match env.listResult with
  | some rs => (rs, s)
  | none => ([], s)

/-- `GPIBController.connect_instrument`: opens a handle (fresh id), sets
timeout/terminators, and stores it under `alias` if that is truthy
(non-`None` and non-empty), else under `resource_name`.  Failures of the
whole `try` block are modelled by `env.openOk`. -/
def connect_instrument (env : Env) (s : GPIBState) (resource_name : String)
    (aliasArg : Option String := none) : Bool × GPIBState :=
  if env.openOk resource_name then
    let hid := s.nextHandle
    -- key = alias if alias else resource_name  (Python truthiness:
    -- both None and "" fall back to resource_name)
    let key := match aliasArg with
      | some a => if a = "" then resource_name else a
      | none => resource_name
    (true,
      { s with
          instruments := dictInsert key hid s.instruments,
          nextHandle := hid + 1,
          trace := s.trace ++ [Event.openR resource_name] })
  else
    (false, s)

/-- `GPIBController.disconnect_instrument`: if the key is present the
handle's `close()` is called; only if that call returns normally is the
registry entry deleted.  A raising `close` is caught and reported as
`False`, leaving the entry in place. -/
def disconnect_instrument (env : Env) (s : GPIBState) (identifier : String) :
    Bool × GPIBState :=
  match dictGet identifier s.instruments with
  | some hid =>
      let s' := { s with trace := s.trace ++ [Event.close hid] }
      if (env.handles hid).closeOk then
        (true, { s' with instruments := dictDel identifier s'.instruments })
      else
        (false, s')
  | none => (false, s)

/-- `GPIBController.send_command`: absent key → `False` with no
transport call; otherwise `write(command)` then `time.sleep(delay)`.
A raising write skips the sleep and returns `False`. -/
def send_command (env : Env) (s : GPIBState) (identifier command : String)
    (delay : Nat := 1) : Bool × GPIBState :=
  match dictGet identifier s.instruments with
  | some hid =>
      if (env.handles hid).writeOk command then
        (true, { s with
            trace := s.trace ++ [Event.write hid command],
            clock := s.clock + delay })
      else
        (false, { s with trace := s.trace ++ [Event.write hid command] })
  | none => (false, s)

/-- `GPIBController.query_command`: absent key → `None` with no
transport call; otherwise `query(command)`, `time.sleep(delay)`, and the
stripped response.  A raising query skips the sleep and returns
`None`. -/
def query_command (env : Env) (s : GPIBState) (identifier command : String)
    (delay : Nat := 1) : Option String × GPIBState :=
  match dictGet identifier s.instruments with
  | some hid =>
      match (env.handles hid).queryResp (queryCount s.trace hid) command with
      | some raw =>
          (some (pyStrip raw),
            { s with
                trace := s.trace ++ [Event.query hid command (some (pyStrip raw))],
                clock := s.clock + delay })
      | none =>
          (none, { s with trace := s.trace ++ [Event.query hid command none] })
  | none => (none, s)

/-- `GPIBController.read_response`: absent key → `None`; otherwise a
blocking `read()`, stripped.  A raising read returns `None`. -/
def read_response (env : Env) (s : GPIBState) (identifier : String) :
    Option String × GPIBState :=
  match dictGet identifier s.instruments with
  | some hid =>
      match (env.handles hid).readResp with
      | some raw =>
          (some (pyStrip raw), { s with trace := s.trace ++ [Event.read hid] })
      | none =>
          (none, { s with trace := s.trace ++ [Event.read hid] })
  | none => (none, s)

/-- `GPIBController.get_identification`. -/
def get_identification (env : Env) (s : GPIBState) (identifier : String) :
    Option String × GPIBState :=
  query_command env s identifier "*IDN?"

/-- `GPIBController.reset_instrument` (`delay=2.0` s = 20 tenths). -/
def reset_instrument (env : Env) (s : GPIBState) (identifier : String) :
    Bool × GPIBState :=
  send_command env s identifier "*RST" 20

/-- `GPIBController.clear_instrument`. -/
def clear_instrument (env : Env) (s : GPIBState) (identifier : String) :
    Bool × GPIBState :=
  send_command env s identifier "*CLS"

/-- The poll loop of `wait_for_completion`, reparametrized by the
remaining budget `timeout - (clock - start)` (in tenths of a second):
since modelled time advances only through the sleeps, the Python
condition `time.time() - start_time < timeout` is `0 < remaining`.
Each iteration issues `query_command(identifier, "*OPC?")` (whose
successful path sleeps 0.1 s), returns `True` on response `"1"`, else
sleeps 0.1 s and continues. -/
def waitLoop (env : Env) (identifier : String) :
    Nat → GPIBState → Bool × GPIBState
  | 0, s => (false, s)
  | remaining + 1, s =>
      let r := query_command env s identifier "*OPC?"
      if r.1 = some "1" then
        (true, r.2)
      else
        -- the 0.1 s loop sleep; time already spent inside query_command
        -- shows as r.2.clock - s.clock ∈ {0, 1}
        let s2 := { r.2 with clock := r.2.clock + 1 }
        if r.2.clock = s.clock then
          waitLoop env identifier remaining s2
        else
          match remaining with
          | 0 => (false, s2)
          | m + 1 => waitLoop env identifier m s2

/-- `GPIBController.wait_for_completion` (timeout in tenths of a
second, default 30.0 s = 300). -/
def wait_for_completion (env : Env) (s : GPIBState) (identifier : String)
    (timeout : Nat := 300) : Bool × GPIBState :=
  waitLoop env identifier timeout s

/-- `GPIBController.close_all_connections`: disconnects every key of a
snapshot of the registry's keys, then calls `rm.close()` (whose failure
is caught and only logged). -/
def close_all_connections (env : Env) (s : GPIBState) : GPIBState :=
  let s1 := (s.instruments.map Prod.fst).foldl
    (fun st k => (disconnect_instrument env st k).2) s
  { s1 with trace := s1.trace ++ [Event.rmClose] }

/-- `LGAD_IV.__init__` (`LGAD_IV.py`): pure construction delegation to
`GPIBController.__init__`; the subclass adds no state or methods. -/
def mkLGAD_IV (env : Env) : Option GPIBState :=
  mkController env

/-- Whether some query in `tr` returned the literal string `"1"` to its
caller. -/
def polledOne (tr : List Event) : Bool :=
  tr.any (fun e => match e with
    | Event.query _ _ (some r) => r = "1"
    | _ => false)

/-- A transport in which every call raises: the resource manager fails
to initialize, enumeration, open, write, query, read and close all
raise. -/
def envFail : Env :=
  { rmInitOk := false,
    listResult := none,
    openOk := fun _ => false,
    handles := fun _ =>
      { queryResp := fun _ _ => none,
        writeOk := fun _ => false,
        readResp := none,
        closeOk := false },
    rmCloseOk := false }

/-- A handle that answers every query with `"0"` and otherwise behaves
normally. -/
def handleAlwaysZero : HandleSpec :=
  { queryResp := fun _ _ => some "0",
    writeOk := fun _ => true,
    readResp := some "ok",
    closeOk := true }

/-- A handle that answers every query with `"1"`. -/
def handleAlwaysOne : HandleSpec :=
  { handleAlwaysZero with queryResp := fun _ _ => some "1" }

/-- A handle whose `close()` raises. -/
def handleCloseRaises : HandleSpec :=
  { handleAlwaysZero with closeOk := false }

/-- A fully working transport whose every handle answers `"0"`. -/
def envAllZero : Env :=
  { rmInitOk := true,
    listResult := some ["GPIB0::10::INSTR"],
    openOk := fun _ => true,
    handles := fun _ => handleAlwaysZero,
    rmCloseOk := true }

/-- A fully working transport whose every handle answers `"1"`. -/
def envAllOne : Env :=
  { envAllZero with handles := fun _ => handleAlwaysOne }

/-- A transport in which every handle close raises. -/
def envCloseRaises : Env :=
  { envAllZero with handles := fun _ => handleCloseRaises }

/-- A registry holding one session `"k" ↦ 0`. -/
def stateOneK : GPIBState :=
  { instruments := [("k", 0)], nextHandle := 1, trace := [], clock := 0 }

/-- A registry holding three sessions. -/
def stateThree : GPIBState :=
  { instruments := [("a", 0), ("b", 1), ("c", 2)], nextHandle := 3,
    trace := [], clock := 0 }

/-- The freshly constructed, empty registry. -/
def stateEmpty : GPIBState :=
  { instruments := [], nextHandle := 0, trace := [], clock := 0 }

/-! ### Dictionary lemmas -/

lemma dictGet_eq_none_of_forall {k : String} {d : List (String × Nat)}
    (h : ∀ p ∈ d, p.1 ≠ k) : dictGet k d = none := by
  induction d with
  | nil => rfl
  | cons q rest ih =>
      have hq : q.1 ≠ k := h q (List.mem_cons_self q rest)
      simp only [dictGet, List.find?] at *
      simp only [hq, decide_eq_true_eq, decide_False] at *
      exact ih (fun p hp => h p (List.mem_cons_of_mem q hp))

lemma dictGet_dictInsert_self (k : String) (v : Nat) (d : List (String × Nat)) :
    dictGet k (dictInsert k v d) = some v := by
  unfold dictInsert
  by_cases hany : d.any (fun p => p.1 = k)
  · simp only [hany, if_true]
    induction d with
    | nil => simp at hany
    | cons q rest ih =>
        by_cases hq : q.1 = k
        · simp [dictGet, List.find?, hq]
        · simp only [List.any_cons, hq, decide_False, Bool.false_or] at hany
          simp only [List.map_cons, if_neg hq]
          simpa [dictGet, List.find?, hq] using ih hany
  · simp only [hany, if_false]
    induction d with
    | nil => simp [dictGet, List.find?]
    | cons q rest ih =>
        simp only [List.any_cons, Bool.or_eq_true, not_or] at hany
        have hq : ¬ q.1 = k := by simpa using hany.1
        simp only [List.cons_append]
        simpa [dictGet, List.find?, hq] using ih (by simpa using hany.2)

lemma dictGet_map_replace (k k' : String) (v : Nat)
    (d : List (String × Nat)) (hne : k' ≠ k) :
    dictGet k' (d.map (fun p => if p.1 = k then (k, v) else p)) =
      dictGet k' d := by
  induction d with
  | nil => rfl
  | cons q rest ih =>
      by_cases hq : q.1 = k
      · have hq' : ¬ q.1 = k' := by
          rw [hq]; exact fun h => hne h.symm
        simp [dictGet, List.find?, hq, hq', Ne.symm hne] at *
        exact ih
      · by_cases hq' : q.1 = k'
        · simp [dictGet, List.find?, hq, hq', hne]
        · simp [dictGet, List.find?, hq, hq'] at *
          exact ih

lemma dictGet_append_single (k k' : String) (v : Nat)
    (d : List (String × Nat)) (hne : k' ≠ k) :
    dictGet k' (d ++ [(k, v)]) = dictGet k' d := by
  induction d with
  | nil => simp [dictGet, List.find?, Ne.symm hne]
  | cons q rest ih =>
      by_cases hq' : q.1 = k'
      · simp [dictGet, List.find?, hq']
      · simp [dictGet, List.find?, hq'] at *
        exact ih

lemma dictGet_dictInsert_ne (k k' : String) (v : Nat) (d : List (String × Nat))
    (hne : k' ≠ k) : dictGet k' (dictInsert k v d) = dictGet k' d := by
  unfold dictInsert
  by_cases hany : d.any (fun p => p.1 = k)
  · simpa [hany] using dictGet_map_replace k k' v d hne
  · simpa [hany] using dictGet_append_single k k' v d hne

lemma dictGet_dictDel_self (k : String) (d : List (String × Nat)) :
    dictGet k (dictDel k d) = none := by
  apply dictGet_eq_none_of_forall
  intro p hp
  have := List.of_mem_filter hp
  simpa using this

/-! ### Counting lemmas -/

lemma closeCount_append (a b : List Event) (hid : Nat) :
    closeCount (a ++ b) hid = closeCount a hid + closeCount b hid := by
  simp [closeCount, List.filter_append]

lemma rmCloseCount_append (a b : List Event) :
    rmCloseCount (a ++ b) = rmCloseCount a + rmCloseCount b := by
  simp [rmCloseCount, List.filter_append]

lemma closeCount_map_close (d : List (String × Nat)) (hid : Nat) :
    closeCount (d.map (fun p => Event.close p.2)) hid
      = (d.filter (fun p => p.2 = hid)).length := by
  induction d with
  | nil => rfl
  | cons q rest ih =>
      by_cases hq : q.2 = hid
      · simp [closeCount, List.filter, hq] at *
        exact ih
      · simp [closeCount, List.filter, hq] at *
        exact ih

lemma rmCloseCount_map_close (d : List (String × Nat)) :
    rmCloseCount (d.map (fun p => Event.close p.2)) = 0 := by
  induction d with
  | nil => rfl
  | cons q rest ih => simpa [rmCloseCount, List.filter] using ih

lemma filter_snd_length_one (d : List (String × Nat)) (p : String × Nat)
    (hd : (d.map Prod.snd).Nodup) (hp : p ∈ d) :
    (d.filter (fun q => q.2 = p.2)).length = 1 := by
  induction d with
  | nil => cases hp
  | cons q rest ih =>
      simp only [List.map_cons, List.nodup_cons] at hd
      rcases List.mem_cons.mp hp with hqp | hmem
      · subst hqp
        have hnone : ∀ r ∈ rest, ¬ r.2 = p.2 := by
          intro r hr hey
          exact hd.1 (by
            rw [← hey]
            exact List.mem_map_of_mem Prod.snd hr)
        have : rest.filter (fun q => q.2 = p.2) = [] := by
          apply List.filter_eq_nil_iff.mpr
          intro r hr
          simpa using hnone r hr
        simp [List.filter, this]
  -- the head matches itself
      · have hne : ¬ q.2 = p.2 := by
          intro hey
          exact hd.1 (by
            rw [hey]
            exact List.mem_map_of_mem Prod.snd hmem)
        simp only [List.filter, hne, decide_False]
        exact ih hd.2 hmem

/-! ### Lemmas about iterated disconnection (`close_all_connections`) -/

lemma dictGet_append_of_not_left (k : String) (pre d : List (String × Nat))
    (h : ∀ p ∈ pre, p.1 ≠ k) :
    dictGet k (pre ++ d) = dictGet k d := by
  induction pre with
  | nil => rfl
  | cons q rest ih =>
      have hq : ¬ q.1 = k := h q (List.mem_cons_self q rest)
      simp only [List.cons_append, dictGet, List.find?, hq, decide_False]
      exact ih (fun p hp => h p (List.mem_cons_of_mem q hp))

lemma dictDel_of_not_mem (k : String) (d : List (String × Nat))
    (h : ∀ p ∈ d, p.1 ≠ k) : dictDel k d = d := by
  apply List.filter_eq_self.mpr
  intro p hp
  simpa using h p hp

lemma dictDel_append (k : String) (a b : List (String × Nat)) :
    dictDel k (a ++ b) = dictDel k a ++ dictDel k b := by
  simp [dictDel, List.filter_append]

lemma disconnect_found_ok (env : Env) (s : GPIBState) (k : String)
    (hid : Nat) (hget : dictGet k s.instruments = some hid)
    (hcl : (env.handles hid).closeOk = true) :
    disconnect_instrument env s k =
      (true, { s with instruments := dictDel k s.instruments,
                      trace := s.trace ++ [Event.close hid] }) := by
  simp [disconnect_instrument, hget, hcl]

lemma disconnect_found_fail (env : Env) (s : GPIBState) (k : String)
    (hid : Nat) (hget : dictGet k s.instruments = some hid)
    (hcl : (env.handles hid).closeOk = false) :
    disconnect_instrument env s k =
      (false, { s with trace := s.trace ++ [Event.close hid] }) := by
  simp [disconnect_instrument, hget, hcl]

lemma disconnect_not_found (env : Env) (s : GPIBState) (k : String)
    (hget : dictGet k s.instruments = none) :
    disconnect_instrument env s k = (false, s) := by
  simp [disconnect_instrument, hget]

/-- One pass of the `close_all_connections` loop over the keys of the
suffix `d` of the registry `pre ++ d`: entries of `pre` (already
processed, their close raised) are untouched, each entry of `d` receives
one `close` call, and exactly the entries whose close raised remain. -/
lemma foldDisconnect_spec (env : Env) :
    ∀ (d pre : List (String × Nat)) (s : GPIBState),
    s.instruments = pre ++ d →
    ((pre ++ d).map Prod.fst).Nodup →
    (((d.map Prod.fst).foldl
        (fun st k => (disconnect_instrument env st k).2) s).instruments
      = pre ++ d.filter (fun p => ¬ (env.handles p.2).closeOk) ∧
     ((d.map Prod.fst).foldl
        (fun st k => (disconnect_instrument env st k).2) s).trace
      = s.trace ++ d.map (fun p => Event.close p.2) ∧
     ((d.map Prod.fst).foldl
        (fun st k => (disconnect_instrument env st k).2) s).clock = s.clock) := by
  intro d
  induction d with
  | nil =>
      intro pre s hs _
      simp [hs]
  | cons q rest ih =>
      intro pre s hs hnd
      obtain ⟨k, h⟩ := q
      have hmap : ((pre ++ (k, h) :: rest).map Prod.fst)
          = pre.map Prod.fst ++ k :: rest.map Prod.fst := by simp
      rw [hmap, List.nodup_append] at hnd
      obtain ⟨hpre_nd, hkr_nd, hdisj⟩ := hnd
      have hk_rest : k ∉ rest.map Prod.fst := (List.nodup_cons.mp hkr_nd).1
      have hrest_nd : (rest.map Prod.fst).Nodup := (List.nodup_cons.mp hkr_nd).2
      have hk_pre : ∀ p ∈ pre, p.1 ≠ k := by
        intro p hp hey
        exact hdisj (hey ▸ List.mem_map_of_mem Prod.fst hp)
          (List.mem_cons_self _ _)
      have hk_rest' : ∀ p ∈ rest, p.1 ≠ k := by
        intro p hp hey
        exact hk_rest (hey ▸ List.mem_map_of_mem Prod.fst hp)
      have hget : dictGet k s.instruments = some h := by
        rw [hs, dictGet_append_of_not_left k pre _ hk_pre]
        simp [dictGet, List.find?]
      simp only [List.map_cons, List.foldl_cons]
      by_cases hcl : (env.handles h).closeOk
      · -- the close succeeds: the entry is removed
        rw [disconnect_found_ok env s k h hget hcl]
        have hdel : dictDel k s.instruments = pre ++ rest := by
          rw [hs, dictDel_append, dictDel_of_not_mem k pre hk_pre]
          have : dictDel k ((k, h) :: rest) = rest := by
            simp only [dictDel, List.filter]
            simp only [decide_not, decide_True, Bool.not_true]
            simpa [dictDel] using dictDel_of_not_mem k rest hk_rest'
          rw [this]
        have hnd' : ((pre ++ rest).map Prod.fst).Nodup := by
          rw [List.map_append, List.nodup_append]
          refine ⟨hpre_nd, hrest_nd, ?_⟩
          intro a ha hb
          exact hdisj ha (List.mem_cons_of_mem _ hb)
        obtain ⟨h1, h2, h3⟩ := ih pre
          { s with instruments := dictDel k s.instruments,
                   trace := s.trace ++ [Event.close h] }
          (by simpa using hdel) (by simpa using hnd')
        refine ⟨?_, ?_, ?_⟩
        · rw [h1]
          simp [List.filter, hcl]
        · rw [h2]
          simp
        · simpa using h3
      · -- the close raises: the entry stays, shifted into the prefix
        have hcl' : (env.handles h).closeOk = false := by
          simpa using hcl
        rw [disconnect_found_fail env s k h hget hcl']
        have hnd' : (((pre ++ [(k, h)]) ++ rest).map Prod.fst).Nodup := by
          have : ((pre ++ [(k, h)]) ++ rest).map Prod.fst
              = pre.map Prod.fst ++ k :: rest.map Prod.fst := by simp
          rw [this, List.nodup_append]
          exact ⟨hpre_nd, hkr_nd, hdisj⟩
        obtain ⟨h1, h2, h3⟩ := ih (pre ++ [(k, h)])
          { s with trace := s.trace ++ [Event.close h] }
          (by simpa using hs) (by simpa using hnd')
        refine ⟨?_, ?_, ?_⟩
        · rw [h1]
          simp [List.filter, hcl']
        · rw [h2]
          simp
        · simpa using h3


/-! ### Lemmas about `query_command` and the poll loop -/

lemma query_command_not_found (env : Env) (s : GPIBState)
    (identifier cmd : String) (d : Nat)
    (h : dictGet identifier s.instruments = none) :
    query_command env s identifier cmd d = (none, s) := by
  simp [query_command, h]

lemma query_command_eq_found (env : Env) (s : GPIBState)
    (identifier cmd : String) (d : Nat) (hid : Nat) (raw : String)
    (hget : dictGet identifier s.instruments = some hid)
    (hresp : (env.handles hid).queryResp (queryCount s.trace hid) cmd
      = some raw) :
    query_command env s identifier cmd d =
      (some (pyStrip raw),
        { s with
            trace := s.trace ++ [Event.query hid cmd (some (pyStrip raw))],
            clock := s.clock + d }) := by
  simp [query_command, hget, hresp]

lemma query_command_eq_raise (env : Env) (s : GPIBState)
    (identifier cmd : String) (d : Nat) (hid : Nat)
    (hget : dictGet identifier s.instruments = some hid)
    (hresp : (env.handles hid).queryResp (queryCount s.trace hid) cmd
      = none) :
    query_command env s identifier cmd d =
      (none, { s with trace := s.trace ++ [Event.query hid cmd none] }) := by
  simp [query_command, hget, hresp]

lemma waitLoop_trace_extends (env : Env) (identifier : String) :
    ∀ (n : Nat) (s : GPIBState),
    ∃ tl, (waitLoop env identifier n s).2.trace = s.trace ++ tl := by
  intro n
  induction n using Nat.strong_induction_on with
  | _ n ih =>
      intro s
      match n with
      | 0 => exact ⟨[], by simp [waitLoop]⟩
      | remaining + 1 =>
          cases hget : dictGet identifier s.instruments with
          | none =>
              have hq := query_command_not_found env s identifier "*OPC?" 1 hget
              rw [waitLoop, hq]
              simp only [Prod.fst, Prod.snd]
              rw [if_neg (by simp)]
              simp only [if_true]
              obtain ⟨tl, htl⟩ := ih remaining (by omega)
                { s with clock := s.clock + 1 }
              exact ⟨tl, by simpa using htl⟩
          | some hid =>
              cases hresp : (env.handles hid).queryResp
                  (queryCount s.trace hid) "*OPC?" with
              | none =>
                  have hq := query_command_eq_raise env s identifier "*OPC?" 1
                    hid hget hresp
                  rw [waitLoop, hq]
                  simp only [Prod.fst, Prod.snd]
                  rw [if_neg (by simp)]
                  simp only [if_true]
                  obtain ⟨tl, htl⟩ := ih remaining (by omega)
                    { s with trace := s.trace ++ [Event.query hid "*OPC?" none],
                             clock := s.clock + 1 }
                  refine ⟨Event.query hid "*OPC?" none :: tl, ?_⟩
                  simp only at htl ⊢
                  rw [htl]
                  simp
              | some raw =>
                  have hq := query_command_eq_found env s identifier "*OPC?" 1
                    hid raw hget hresp
                  by_cases hone : pyStrip raw = "1"
                  · rw [waitLoop, hq]
                    simp only [Prod.fst, Prod.snd]
                    rw [if_pos (by rw [hone])]
                    exact ⟨[Event.query hid "*OPC?" (some (pyStrip raw))], rfl⟩
                  · rw [waitLoop, hq]
                    simp only [Prod.fst, Prod.snd]
                    rw [if_neg (by simpa using hone)]
                    rw [if_neg (by omega)]
                    match remaining with
                    | 0 =>
                        exact ⟨[Event.query hid "*OPC?" (some (pyStrip raw))],
                          rfl⟩
                    | m + 1 =>
                        obtain ⟨tl, htl⟩ := ih m (by omega)
                          { s with
                              trace := s.trace ++
                                [Event.query hid "*OPC?" (some (pyStrip raw))],
                              clock := s.clock + 1 + 1 }
                        refine ⟨Event.query hid "*OPC?" (some (pyStrip raw))
                          :: tl, ?_⟩
                        simp only at htl ⊢
                        rw [htl]
                        simp

lemma polledOne_append (a b : List Event) :
    polledOne (a ++ b) = (polledOne a || polledOne b) := by
  simp [polledOne, List.any_append]

/-- The poll loop result is `true` exactly when one of the queries it
issued returned the literal `"1"`. -/
lemma waitLoop_polledOne (env : Env) (identifier : String) :
    ∀ (n : Nat) (s : GPIBState),
    ((waitLoop env identifier n s).1 = true ↔
      polledOne ((waitLoop env identifier n s).2.trace.drop
        s.trace.length) = true) := by
  intro n
  induction n using Nat.strong_induction_on with
  | _ n ih =>
      intro s
      match n with
      | 0 =>
          simp [waitLoop, polledOne, List.drop_length]
      | remaining + 1 =>
          cases hget : dictGet identifier s.instruments with
          | none =>
              have hq := query_command_not_found env s identifier "*OPC?" 1 hget
              rw [waitLoop, hq]
              simp only [Prod.fst, Prod.snd]
              rw [if_neg (by simp)]
              simp only [if_true]
              have := ih remaining (by omega) { s with clock := s.clock + 1 }
              simpa using this
          | some hid =>
              cases hresp : (env.handles hid).queryResp
                  (queryCount s.trace hid) "*OPC?" with
              | none =>
                  have hq := query_command_eq_raise env s identifier "*OPC?" 1
                    hid hget hresp
                  rw [waitLoop, hq]
                  simp only [Prod.fst, Prod.snd]
                  rw [if_neg (by simp)]
                  simp only [if_true]
                  have hih := ih remaining (by omega)
                    { s with trace := s.trace ++ [Event.query hid "*OPC?" none],
                             clock := s.clock + 1 }
                  obtain ⟨tl, htl⟩ := waitLoop_trace_extends env identifier
                    remaining
                    { s with trace := s.trace ++ [Event.query hid "*OPC?" none],
                             clock := s.clock + 1 }
                  simp only at hih htl ⊢
                  rw [htl] at hih ⊢
                  rw [List.drop_left] at hih
                  rw [List.append_assoc, List.drop_left]
                  rw [hih, polledOne_append]
                  simp [polledOne]
              | some raw =>
                  have hq := query_command_eq_found env s identifier "*OPC?" 1
                    hid raw hget hresp
                  by_cases hone : pyStrip raw = "1"
                  · rw [waitLoop, hq]
                    simp only [Prod.fst, Prod.snd]
                    rw [if_pos (by rw [hone])]
                    simp only [Prod.fst, Prod.snd]
                    rw [List.drop_left]
                    simp [polledOne, hone]
                  · rw [waitLoop, hq]
                    simp only [Prod.fst, Prod.snd]
                    rw [if_neg (by simpa using hone)]
                    rw [if_neg (by omega)]
                    match remaining with
                    | 0 =>
                        simp only [Prod.fst, Prod.snd]
                        rw [List.drop_left]
                        simp [polledOne, hone]
                    | m + 1 =>
                        have hih := ih m (by omega)
                          { s with
                              trace := s.trace ++
                                [Event.query hid "*OPC?" (some (pyStrip raw))],
                              clock := s.clock + 1 + 1 }
                        obtain ⟨tl, htl⟩ := waitLoop_trace_extends env
                          identifier m
                          { s with
                              trace := s.trace ++
                                [Event.query hid "*OPC?" (some (pyStrip raw))],
                              clock := s.clock + 1 + 1 }
                        simp only at hih htl ⊢
                        rw [htl] at hih ⊢
                        rw [List.drop_left] at hih
                        rw [List.append_assoc, List.drop_left]
                        rw [hih, polledOne_append]
                        simp [polledOne, hone]

/-- Polling a key that is not in the registry: the loop busy-polls the
full timeout, performs no transport operation, changes no registry
state, and returns `false`. -/
lemma waitLoop_not_found (env : Env) (identifier : String) :
    ∀ (n : Nat) (s : GPIBState),
    dictGet identifier s.instruments = none →
    (waitLoop env identifier n s).1 = false ∧
    (waitLoop env identifier n s).2.instruments = s.instruments ∧
    (waitLoop env identifier n s).2.trace = s.trace ∧
    (waitLoop env identifier n s).2.nextHandle = s.nextHandle ∧
    (waitLoop env identifier n s).2.clock = s.clock + n := by
  intro n
  induction n with
  | zero => intro s h; simp [waitLoop]
  | succ m ih =>
      intro s h
      have hq := query_command_not_found env s identifier "*OPC?" 1 h
      rw [waitLoop, hq]
      simp only [Prod.fst, Prod.snd]
      rw [if_neg (by simp)]
      simp only [if_true]
      have := ih { s with clock := s.clock + 1 } (by simpa using h)
      simpa [Nat.add_comm, Nat.add_assoc, Nat.add_left_comm] using this

lemma query_command_envFail (s : GPIBState) (identifier cmd : String)
    (d : Nat) :
    (query_command envFail s identifier cmd d).1 = none ∧
    (query_command envFail s identifier cmd d).2.clock = s.clock ∧
    (query_command envFail s identifier cmd d).2.instruments
      = s.instruments := by
  cases hget : dictGet identifier s.instruments with
  | none => simp [query_command, hget]
  | some hid => simp [query_command, hget, envFail]

/-- Under the all-raising transport every poll returns `None`, so the
loop can only time out. -/
lemma waitLoop_envFail (identifier : String) :
    ∀ (n : Nat) (s : GPIBState),
    (waitLoop envFail identifier n s).1 = false := by
  intro n
  induction n with
  | zero => intro s; rfl
  | succ m ih =>
      intro s
      obtain ⟨h1, hck, _⟩ := query_command_envFail s identifier "*OPC?" 1
      rw [waitLoop]
      rw [if_neg (by rw [h1]; simp)]
      rw [if_pos hck]
      exact ih _

lemma any_key_of_dictGet_some {k : String} {d : List (String × Nat)}
    {hid : Nat} (h : dictGet k d = some hid) :
    d.any (fun p => p.1 = k) = true := by
  induction d with
  | nil => simp [dictGet] at h
  | cons q rest ih =>
      by_cases hq : q.1 = k
      · simp [hq]
      · simp only [dictGet, List.find?, hq, decide_False] at h
        simp only [List.any_cons, hq, decide_False, Bool.false_or]
        exact ih h

lemma dictInsert_keys_of_mem (k : String) (v : Nat)
    (d : List (String × Nat)) (h : d.any (fun p => p.1 = k) = true) :
    (dictInsert k v d).map Prod.fst = d.map Prod.fst := by
  unfold dictInsert
  rw [if_pos h, List.map_map]
  apply List.map_congr_left
  intro p _
  by_cases hp : p.1 = k
  · simp [hp]
  · simp [hp]

/-! ### Claim theorems -/

/-- C3: for every key not present in the registry, `send_command` and
`disconnect_instrument` return `False` and `query_command` and
`read_response` return `None`, and the returned state is exactly the
input state — in particular the trace is unchanged, so no transport
operation (write, query, read, or close) was performed. -/
theorem C3_missing_key_no_transport (env : Env) (s : GPIBState)
    (key cmd : String) (delay : Nat)
    (h : dictGet key s.instruments = none) :
    send_command env s key cmd delay = (false, s) ∧
    query_command env s key cmd delay = (none, s) ∧
    read_response env s key = (none, s) ∧
    disconnect_instrument env s key = (false, s) := by
  refine ⟨?_, ?_, ?_, ?_⟩
  · simp [send_command, h]
  · simp [query_command, h]
  · simp [read_response, h]
  · simp [disconnect_instrument, h]

/-- Witness for C3 at the concrete missing key `"zz"`. -/
theorem C3_missing_key_no_transport_witness :
    send_command envAllZero stateOneK "zz" "*RST" 1 = (false, stateOneK) ∧
    query_command envAllZero stateOneK "zz" "*RST" 1 = (none, stateOneK) ∧
    read_response envAllZero stateOneK "zz" = (none, stateOneK) ∧
    disconnect_instrument envAllZero stateOneK "zz" = (false, stateOneK) :=
  C3_missing_key_no_transport envAllZero stateOneK "zz" "*RST" 1 (by decide)

/-- C7: `disconnect_instrument(key)` with `key` present and a close
that returns normally closes the handle, removes the registry entry and
returns `True`; with `key` absent it returns `False` and changes
nothing; when the handle close raises it returns `False` and the entry
for `key` remains in the registry, the registry unchanged. -/
theorem C7_disconnect_cases (env : Env) (s : GPIBState) (key : String) :
    (∀ hid, dictGet key s.instruments = some hid →
      (env.handles hid).closeOk = true →
      disconnect_instrument env s key =
        (true, { s with instruments := dictDel key s.instruments,
                        trace := s.trace ++ [Event.close hid] })) ∧
    (dictGet key s.instruments = none →
      disconnect_instrument env s key = (false, s)) ∧
    (∀ hid, dictGet key s.instruments = some hid →
      (env.handles hid).closeOk = false →
      (disconnect_instrument env s key).1 = false ∧
      (disconnect_instrument env s key).2.instruments = s.instruments ∧
      dictGet key (disconnect_instrument env s key).2.instruments
        = some hid) := by
  refine ⟨?_, ?_, ?_⟩
  · intro hid hget hcl
    exact disconnect_found_ok env s key hid hget hcl
  · intro hget
    exact disconnect_not_found env s key hget
  · intro hid hget hcl
    rw [disconnect_found_fail env s key hid hget hcl]
    exact ⟨rfl, rfl, hget⟩

/-- Witness for C7: all three cases at concrete inputs. -/
theorem C7_disconnect_cases_witness :
    disconnect_instrument envAllZero stateOneK "k" =
      (true, { stateOneK with
                 instruments := dictDel "k" stateOneK.instruments,
                 trace := stateOneK.trace ++ [Event.close 0] }) ∧
    disconnect_instrument envAllZero stateOneK "zz" = (false, stateOneK) ∧
    ((disconnect_instrument envCloseRaises stateOneK "k").1 = false ∧
     (disconnect_instrument envCloseRaises stateOneK "k").2.instruments
       = stateOneK.instruments ∧
     dictGet "k" (disconnect_instrument envCloseRaises
       stateOneK "k").2.instruments = some 0) :=
  ⟨(C7_disconnect_cases envAllZero stateOneK "k").1 0 (by decide) (by decide),
   (C7_disconnect_cases envAllZero stateOneK "zz").2.1 (by decide),
   (C7_disconnect_cases envCloseRaises stateOneK "k").2.2 0 (by decide)
     (by decide)⟩

/-- C9: `connect_instrument(address, "")` with the empty string as alias
registers the session under `address` itself (alias is tested for Python
truthiness, and `""` is falsy), not under the empty-string key. -/
theorem C9_empty_alias_falls_back_to_address (env : Env) (s : GPIBState)
    (addr : String) (hopen : env.openOk addr = true) :
    (connect_instrument env s addr (some "")).1 = true ∧
    (connect_instrument env s addr (some "")).2.instruments
      = dictInsert addr s.nextHandle s.instruments ∧
    dictGet addr (connect_instrument env s addr (some "")).2.instruments
      = some s.nextHandle ∧
    (addr ≠ "" →
      dictGet "" (connect_instrument env s addr (some "")).2.instruments
        = dictGet "" s.instruments) := by
  refine ⟨?_, ?_, ?_, ?_⟩
  · simp [connect_instrument, hopen]
  · simp [connect_instrument, hopen]
  · simp only [connect_instrument, hopen, if_true]
    exact dictGet_dictInsert_self addr s.nextHandle s.instruments
  · intro haddr
    simp only [connect_instrument, hopen, if_true]
    exact dictGet_dictInsert_ne addr "" s.nextHandle s.instruments
      (fun h => haddr h.symm)

/-- Witness for C9 at a concrete address. -/
theorem C9_empty_alias_falls_back_to_address_witness :
    (connect_instrument envAllZero stateEmpty "GPIB0::10::INSTR"
      (some "")).1 = true ∧
    dictGet "GPIB0::10::INSTR" (connect_instrument envAllZero stateEmpty
      "GPIB0::10::INSTR" (some "")).2.instruments = some 0 ∧
    dictGet "" (connect_instrument envAllZero stateEmpty "GPIB0::10::INSTR"
      (some "")).2.instruments = none :=
  ⟨(C9_empty_alias_falls_back_to_address envAllZero stateEmpty
      "GPIB0::10::INSTR" (by decide)).1,
   (C9_empty_alias_falls_back_to_address envAllZero stateEmpty
      "GPIB0::10::INSTR" (by decide)).2.2.1,
   by
    have := (C9_empty_alias_falls_back_to_address envAllZero stateEmpty
      "GPIB0::10::INSTR" (by decide)).2.2.2 (by decide)
    rw [this]
    decide⟩

/-- C10: for every key not in the registry and every timeout,
`wait_for_completion` never returns `True`: each poll's `query_command`
returns `None`, which never equals `"1"`, so the loop busy-polls (the
clock advances by the full timeout) without any transport operation and
returns `False` rather than failing fast. -/
theorem C10_wait_missing_key_times_out (env : Env) (s : GPIBState)
    (key : String) (timeout : Nat)
    (h : dictGet key s.instruments = none) :
    (wait_for_completion env s key timeout).1 = false ∧
    (wait_for_completion env s key timeout).2.trace = s.trace ∧
    (wait_for_completion env s key timeout).2.instruments = s.instruments ∧
    (wait_for_completion env s key timeout).2.clock = s.clock + timeout := by
  have hl := waitLoop_not_found env key timeout s h
  exact ⟨hl.1, hl.2.2.1, hl.2.1, hl.2.2.2.2⟩

/-- Witness for C10 at a concrete missing key and timeout 30 s. -/
theorem C10_wait_missing_key_times_out_witness :
    (wait_for_completion envAllZero stateOneK "zz" 300).1 = false ∧
    (wait_for_completion envAllZero stateOneK "zz" 300).2.trace
      = stateOneK.trace ∧
    (wait_for_completion envAllZero stateOneK "zz" 300).2.clock = 300 :=
  ⟨(C10_wait_missing_key_times_out envAllZero stateOneK "zz" 300
      (by decide)).1,
   (C10_wait_missing_key_times_out envAllZero stateOneK "zz" 300
      (by decide)).2.1,
   (C10_wait_missing_key_times_out envAllZero stateOneK "zz" 300
      (by decide)).2.2.2⟩

/-- C2 counterexample: against a handle whose every poll response is
`"0"` and timeout 1.0 s (10 tenths), the number of `*OPC?` polls issued
is 5, not between 9 and 11 as claimed — each loop iteration advances the
modelled time by 0.2 s (the 0.1 s sleep inside `query_command` plus the
0.1 s loop sleep), not 0.1 s. -/
theorem C2_counterexample_poll_count :
    ¬ (9 ≤ queryCount
          (wait_for_completion envAllZero stateOneK "k" 10).2.trace 0 ∧
        queryCount
          (wait_for_completion envAllZero stateOneK "k" 10).2.trace 0
          ≤ 11) := by
  decide

/-- C2 (amended): `wait_for_completion(key, timeout)` polls
`query_command(key, "*OPC?")` until the response equals `"1"` or the
modelled elapsed time reaches `timeout`; each iteration advances modelled
time by 0.2 s (the 0.1 s sleep inside `query_command` plus the 0.1 s loop
sleep), so against a handle whose every response is `"0"` and
timeout 1.0 s it returns failure after the full modelled second, having
issued exactly 5 poll queries. -/
theorem C2_wait_timeout_five_polls :
    (wait_for_completion envAllZero stateOneK "k" 10).1 = false ∧
    queryCount (wait_for_completion envAllZero stateOneK "k" 10).2.trace 0
      = 5 ∧
    (wait_for_completion envAllZero stateOneK "k" 10).2.clock = 10 := by
  decide

/-- C8: `wait_for_completion(key, timeout)` returns `True` exactly when
some `*OPC?` poll issued during the call returned the literal string
`"1"`; in particular, against a handle whose first response is `"1"` it
returns `True` with exactly one query issued. -/
theorem C8_wait_success_iff_polled_one :
    (∀ (env : Env) (s : GPIBState) (key : String) (timeout : Nat),
      ((wait_for_completion env s key timeout).1 = true ↔
        polledOne ((wait_for_completion env s key timeout).2.trace.drop
          s.trace.length) = true)) ∧
    ((wait_for_completion envAllOne stateOneK "k" 10).1 = true ∧
     queryCount (wait_for_completion envAllOne stateOneK "k" 10).2.trace 0
       = 1) := by
  refine ⟨?_, by decide, by decide⟩
  intro env s key timeout
  exact waitLoop_polledOne env key timeout s

/-- C4: a successful `connect_instrument(address2, k)` with alias `k`
already registered replaces the registry entry under `k` with the newly
opened handle (the key set is unchanged), and the previously registered
handle never receives a `close` call from this layer — the only
transport event of the call is the open. -/
theorem C4_duplicate_alias_replaces_without_close (env : Env)
    (s : GPIBState) (k addr2 : String) (oldH : Nat)
    (hk : k ≠ "")
    (hold : dictGet k s.instruments = some oldH)
    (hopen : env.openOk addr2 = true) :
    (connect_instrument env s addr2 (some k)).1 = true ∧
    dictGet k (connect_instrument env s addr2 (some k)).2.instruments
      = some s.nextHandle ∧
    (connect_instrument env s addr2 (some k)).2.instruments.map Prod.fst
      = s.instruments.map Prod.fst ∧
    (connect_instrument env s addr2 (some k)).2.trace
      = s.trace ++ [Event.openR addr2] ∧
    closeCount ((connect_instrument env s addr2 (some k)).2.trace.drop
      s.trace.length) oldH = 0 := by
  refine ⟨?_, ?_, ?_, ?_, ?_⟩
  · simp [connect_instrument, hopen]
  · simp only [connect_instrument, hopen, if_true, if_neg hk]
    exact dictGet_dictInsert_self k s.nextHandle s.instruments
  · simp only [connect_instrument, hopen, if_true, if_neg hk]
    exact dictInsert_keys_of_mem k s.nextHandle s.instruments
      (any_key_of_dictGet_some hold)
  · simp [connect_instrument, hopen, hk]
  · simp only [connect_instrument, hopen, if_true, if_neg hk]
    rw [List.drop_left]
    simp [closeCount]

/-- Witness for C4: re-registering `"k"` in a one-session registry. -/
theorem C4_duplicate_alias_replaces_without_close_witness :
    (connect_instrument envAllZero stateOneK "GPIB0::12::INSTR"
      (some "k")).1 = true ∧
    dictGet "k" (connect_instrument envAllZero stateOneK "GPIB0::12::INSTR"
      (some "k")).2.instruments = some 1 ∧
    closeCount ((connect_instrument envAllZero stateOneK "GPIB0::12::INSTR"
      (some "k")).2.trace.drop stateOneK.trace.length) 0 = 0 :=
  ⟨(C4_duplicate_alias_replaces_without_close envAllZero stateOneK "k"
      "GPIB0::12::INSTR" 0 (by decide) (by decide) (by decide)).1,
   (C4_duplicate_alias_replaces_without_close envAllZero stateOneK "k"
      "GPIB0::12::INSTR" 0 (by decide) (by decide) (by decide)).2.1,
   (C4_duplicate_alias_replaces_without_close envAllZero stateOneK "k"
      "GPIB0::12::INSTR" 0 (by decide) (by decide) (by decide)).2.2.2.2⟩

/-- C5: when opening and closing succeed,
`connect_instrument(address, alias)` followed by
`disconnect_instrument(alias)` leaves the registry without `alias`, the
disconnect reports success, and the handle opened by the connect
receives exactly one `close` call. -/
theorem C5_connect_disconnect_roundtrip (env : Env) (s : GPIBState)
    (addr a : String)
    (ha : a ≠ "")
    (hopen : env.openOk addr = true)
    (hclose : (env.handles s.nextHandle).closeOk = true) :
    (disconnect_instrument env
      (connect_instrument env s addr (some a)).2 a).1 = true ∧
    dictGet a (disconnect_instrument env
      (connect_instrument env s addr (some a)).2 a).2.instruments = none ∧
    closeCount ((disconnect_instrument env
        (connect_instrument env s addr (some a)).2 a).2.trace.drop
      s.trace.length) s.nextHandle = 1 := by
  have hconn : (connect_instrument env s addr (some a)).2 =
      { s with
          instruments := dictInsert a s.nextHandle s.instruments,
          nextHandle := s.nextHandle + 1,
          trace := s.trace ++ [Event.openR addr] } := by
    simp [connect_instrument, hopen, ha]
  rw [hconn]
  have hget : dictGet a (dictInsert a s.nextHandle s.instruments)
      = some s.nextHandle :=
    dictGet_dictInsert_self a s.nextHandle s.instruments
  rw [disconnect_found_ok env _ a s.nextHandle (by simpa using hget)
    (by simpa using hclose)]
  refine ⟨rfl, ?_, ?_⟩
  · simpa using dictGet_dictDel_self a
      (dictInsert a s.nextHandle s.instruments)
  · simp only [List.append_assoc]
    rw [List.drop_left]
    simp [closeCount]

/-- Witness for C5: connect then disconnect on the empty registry. -/
theorem C5_connect_disconnect_roundtrip_witness :
    (disconnect_instrument envAllZero
      (connect_instrument envAllZero stateEmpty "GPIB0::10::INSTR"
        (some "dmm")).2 "dmm").1 = true ∧
    dictGet "dmm" (disconnect_instrument envAllZero
      (connect_instrument envAllZero stateEmpty "GPIB0::10::INSTR"
        (some "dmm")).2 "dmm").2.instruments = none ∧
    closeCount ((disconnect_instrument envAllZero
        (connect_instrument envAllZero stateEmpty "GPIB0::10::INSTR"
          (some "dmm")).2 "dmm").2.trace.drop
      stateEmpty.trace.length) 0 = 1 :=
  C5_connect_disconnect_roundtrip envAllZero stateEmpty "GPIB0::10::INSTR"
    "dmm" (by decide) (by decide) (by decide)

/-- C1 counterexample: on a registry with one session whose handle
close raises, `close_all_connections` does NOT leave the registry
empty — the entry whose close raised remains. -/
theorem C1_counterexample_raising_close_keeps_entry :
    ¬ ((close_all_connections envCloseRaises stateOneK).instruments
        = []) := by
  decide

/-- C1 (amended): after `close_all_connections()` on any registry state
with distinct keys and distinct handles, each previously registered
handle received exactly one `close` call and the resource manager
received exactly one `close` call, regardless of whether any individual
handle close raises; the registry retains exactly the entries whose
close raised — in particular it is empty when no handle close
raises. -/
theorem C1_close_all_connections (env : Env) (s : GPIBState)
    (hkeys : (s.instruments.map Prod.fst).Nodup)
    (hids : (s.instruments.map Prod.snd).Nodup) :
    (∀ p ∈ s.instruments,
      closeCount ((close_all_connections env s).trace.drop
        s.trace.length) p.2 = 1) ∧
    rmCloseCount ((close_all_connections env s).trace.drop
      s.trace.length) = 1 ∧
    (close_all_connections env s).instruments
      = s.instruments.filter (fun p => ¬ (env.handles p.2).closeOk) ∧
    ((∀ p ∈ s.instruments, (env.handles p.2).closeOk) →
      (close_all_connections env s).instruments = []) := by
  obtain ⟨hins, htr, _⟩ := foldDisconnect_spec env s.instruments [] s
    (by simp) (by simpa using hkeys)
  have htrace : (close_all_connections env s).trace
      = s.trace ++ (s.instruments.map (fun p => Event.close p.2)
          ++ [Event.rmClose]) := by
    unfold close_all_connections
    simp only [htr, List.append_assoc]
  have hdrop : (close_all_connections env s).trace.drop s.trace.length
      = s.instruments.map (fun p => Event.close p.2) ++ [Event.rmClose] := by
    rw [htrace, List.drop_left]
  have hinstr : (close_all_connections env s).instruments
      = s.instruments.filter (fun p => ¬ (env.handles p.2).closeOk) := by
    unfold close_all_connections
    simpa using hins
  refine ⟨?_, ?_, hinstr, ?_⟩
  · intro p hp
    rw [hdrop, closeCount_append, closeCount_map_close]
    have h1 : (s.instruments.filter (fun q => q.2 = p.2)).length = 1 :=
      filter_snd_length_one s.instruments p hids hp
    simp [closeCount, h1]
  · rw [hdrop, rmCloseCount_append, rmCloseCount_map_close]
    simp [rmCloseCount]
  · intro hall
    rw [hinstr]
    apply List.filter_eq_nil_iff.mpr
    intro p hp
    simp [hall p hp]

/-- Witness for C1 on the three-session registry with all closes
succeeding. -/
theorem C1_close_all_connections_witness :
    (∀ p ∈ stateThree.instruments,
      closeCount ((close_all_connections envAllZero stateThree).trace.drop
        stateThree.trace.length) p.2 = 1) ∧
    rmCloseCount ((close_all_connections envAllZero stateThree).trace.drop
      stateThree.trace.length) = 1 ∧
    (close_all_connections envAllZero stateThree).instruments = [] :=
  ⟨(C1_close_all_connections envAllZero stateThree (by decide)
      (by decide)).1,
   (C1_close_all_connections envAllZero stateThree (by decide)
      (by decide)).2.1,
   (C1_close_all_connections envAllZero stateThree (by decide)
      (by decide)).2.2.2 (by decide)⟩

/-- C6: every public operation is total over the registry state and,
under the all-raising transport `envFail`, converts the underlying
exception to its sentinel: `False` for `connect_instrument`,
`disconnect_instrument`, `send_command`, `reset_instrument`,
`clear_instrument` and `wait_for_completion`, the empty list for
`list_resources`, `None` for `query_command`, `read_response` and
`get_identification`; only construction (`mkController`, and the
`LGAD_IV` subclass construction delegating to it) propagates the
resource-manager initialization failure. -/
theorem C6_total_sentinel_surface (s : GPIBState) (key cmd addr : String)
    (aliasArg : Option String) (delay timeout : Nat) :
    mkController envFail = none ∧
    mkLGAD_IV envFail = none ∧
    (list_resources envFail s).1 = [] ∧
    (connect_instrument envFail s addr aliasArg).1 = false ∧
    (disconnect_instrument envFail s key).1 = false ∧
    (send_command envFail s key cmd delay).1 = false ∧
    (query_command envFail s key cmd delay).1 = none ∧
    (read_response envFail s key).1 = none ∧
    (get_identification envFail s key).1 = none ∧
    (reset_instrument envFail s key).1 = false ∧
    (clear_instrument envFail s key).1 = false ∧
    (wait_for_completion envFail s key timeout).1 = false := by
  refine ⟨rfl, rfl, rfl, ?_, ?_, ?_, ?_, ?_, ?_, ?_, ?_, ?_⟩
  · simp [connect_instrument, envFail]
  · cases hget : dictGet key s.instruments with
    | none => simp [disconnect_instrument, hget]
    | some hid => simp [disconnect_instrument, hget, envFail]
  · cases hget : dictGet key s.instruments with
    | none => simp [send_command, hget]
    | some hid => simp [send_command, hget, envFail]
  · exact (query_command_envFail s key cmd delay).1
  · cases hget : dictGet key s.instruments with
    | none => simp [read_response, hget]
    | some hid => simp [read_response, hget, envFail]
  · exact (query_command_envFail s key "*IDN?" 1).1
  · cases hget : dictGet key s.instruments with
    | none => simp [reset_instrument, send_command, hget]
    | some hid => simp [reset_instrument, send_command, hget, envFail]
  · cases hget : dictGet key s.instruments with
    | none => simp [clear_instrument, send_command, hget]
    | some hid => simp [clear_instrument, send_command, hget, envFail]
  · exact waitLoop_envFail key timeout s
